import Mathlib

/-!
Verification development for the SMS sending dashboard (src/app.py).

The embedding is a shallow, sequential model of the dispatch path:

* Config          — the persisted config.json fields relevant to dispatch
                    (load_config / save_config, lines 43-75).
* Contact         — one row of contacts.csv (load_contacts, lines 78-93).
* send_sms        — the per-contact device interaction (lines 145-193);
                    the results of the adb commands issued after the launch
                    intent are parameters of the model, exactly because the
                    source discards them.
* runLoopAux      — the dispatch loop of send_all_sms (lines 248-273),
                    with the externally flipped is_running flag modelled by
                    a cancellation oracle, the adb environment by oracles,
                    and timestamps by an oracle.
* send_all_sms    — the whole worker body (lines 196-286): date rollover
                    reset, quota check and truncation, loop, commit, log
                    file write.  External writes to config.json between the
                    start of the run and the commit (for example the
                    /api/daily-count/reset endpoint) are modelled by the
                    interfere field of RunInput; a run with no external
                    interference has interfere = id.
* api_start_send  — the start endpoint (lines 500-515): the returned
                    triple is (response, run record after the call, whether
                    a background worker thread was started).
* runStream       — the SSE fan-in over the single shared queue.Queue
                    (log_queue, line 40; api_send_stream, lines 532-543):
                    a get pops the head if present, otherwise the bounded
                    wait elapses and a ping heartbeat is yielded.
* encodeStatus / decodeStatus — JSON persistence of the run record
                    (lines 284-286) and its reload (api_get_log_detail,
                    lines 567-574), at the level of JSON values; logSummary
                    is the derived-count reader of api_get_logs
                    (lines 546-564).
-/

/-- One row of contacts.csv as loaded by load_contacts (src/app.py lines 78-93). -/
structure Contact where
  id : Nat
  phone : String
  name : String
  message : String
  enabled : Bool
deriving Repr, DecidableEq

/-- The persisted config.json fields that the dispatch path reads or writes
(load_config, lines 43-69).  Counts are integers as in Python. -/
structure Config where
  default_message : String
  send_delay_seconds : Nat
  send_method : String
  max_send_count : Int
  daily_sent_count : Int
  daily_sent_date : String
deriving Repr, DecidableEq

/-- One element of send_status["results"], built at lines 255-264. -/
structure LogEntry where
  index : Nat
  phone : String
  name : String
  timestamp : String
  success : Bool
  result : String
deriving Repr, DecidableEq

/-- The send_status dictionary (lines 31-37, 221-228, 233-241).  Keys that
are present only on some paths (error, max_count, daily_sent_before) and the
nullable start_time are Option fields. -/
structure SendStatus where
  is_running : Bool
  current : Nat
  total : Nat
  results : List LogEntry
  start_time : Option String
  error : Option String
  max_count : Option Int
  daily_sent_before : Option Int
deriving Repr, DecidableEq

/-- Result of one adb invocation as seen by run_adb_command (lines 110-126):
the boolean returncode test plus captured stdout and stderr. -/
structure AdbOutcome where
  ok : Bool
  out : String
  err : String
deriving Repr, DecidableEq

/-- send_sms (src/app.py lines 145-193).  In dry-run mode it returns
(True, "Dry run OK") at once.  Otherwise the launch intent is issued; if
that fails the function returns (False, "Launch failed: stderr").  The
results of every later adb command (the tap, key or tab-enter sequence and
the Home key) are not captured by the source, so they appear here as the
followUps parameter that the definition ignores, and the function returns
(True, "Sent"). -/
def send_sms (phone message : String) (dry_run : Bool) (send_method : String)
    (launch : AdbOutcome) (followUps : List AdbOutcome) : Bool × String :=
  if dry_run then (true, "Dry run OK")
  else if launch.ok = false then (false, "Launch failed: " ++ launch.err)
  else (true, "Sent")

/-- message = contact["message"] or default_message (line 253): the empty
string is falsy in Python. -/
def resolveMessage (c : Contact) (default_message : String) : String :=
  if c.message = "" then default_message else c.message

/-- The per-run environment of the dispatch loop: config values read at run
start plus the oracles for the adb results, the externally flipped
is_running flag, and the per-contact timestamps. -/
structure LoopEnv where
  dm : String
  dry_run : Bool
  send_method : String
  launch : Nat → AdbOutcome
  followUps : Nat → List AdbOutcome
  cancel : Nat → Bool
  stamp : Nat → String

/-- The outcome of send_sms for contact c at loop position i (line 262). -/
def loopOutcome (env : LoopEnv) (c : Contact) (i : Nat) : Bool × String :=
  send_sms c.phone (resolveMessage c env.dm) env.dry_run env.send_method
    (env.launch i) (env.followUps i)

/-- The dispatch loop of send_all_sms (lines 248-273).  Arguments after the
contact list: the 0-based position of the head contact, the last value
written to send_status["current"], and the sent_count accumulator.  Returns
(results appended, final current, final sent_count).  cancel i = true means
the loop observed is_running = False at the top of iteration i (line 249)
and breaks, leaving the rest unprocessed. -/
def runLoopAux (env : LoopEnv) :
    List Contact → Nat → Nat → Nat → List LogEntry × Nat × Nat
  | [], _, cur, sent => ([], cur, sent)
  | c :: rest, i, cur, sent =>
    if env.cancel i then ([], cur, sent)
    else
      let pr := loopOutcome env c i
      let e : LogEntry :=
        { index := i + 1, phone := c.phone, name := c.name,
          timestamp := env.stamp i, success := pr.1, result := pr.2 }
      let r := runLoopAux env rest (i + 1) (i + 1)
        (sent + (if pr.1 then 1 else 0))
      (e :: r.1, r.2.1, r.2.2)

/-- Date rollover reset (lines 209-213): when the stored daily_sent_date
differs from today, daily_sent_count is reset to 0 and the date advanced. -/
def rollConfig (config : Config) (today : String) : Config :=
  if config.daily_sent_date ≠ today then
    { config with daily_sent_count := 0, daily_sent_date := today }
  else config

/-- The quota-exhausted test (lines 218-220): max_send_count positive and
remaining = max_send_count - daily_sent_count non-positive. -/
def quotaBlocked (config1 : Config) : Bool :=
  decide (0 < config1.max_send_count) &&
    decide (config1.max_send_count - config1.daily_sent_count ≤ 0)

/-- Enabled filter (line 201) followed by the quota truncation
contacts[:remaining] (line 231); no truncation when max_send_count = 0. -/
def eligibleContacts (config1 : Config) (contacts : List Contact) : List Contact :=
  let enabled := contacts.filter (fun c => c.enabled)
  if 0 < config1.max_send_count then
    enabled.take (config1.max_send_count - config1.daily_sent_count).toNat
  else enabled

/-- One invocation of the worker: the contact snapshot, the date string
computed at line 207, the dry_run flag, the adb oracles, the cancellation
oracle, the timestamp oracle, the start_time string, and the external
config.json interference applied between run start and commit (id when
nothing else writes the file during the run). -/
structure RunInput where
  contacts : List Contact
  today : String
  dry_run : Bool
  launch : Nat → AdbOutcome
  followUps : Nat → List AdbOutcome
  cancel : Nat → Bool
  stamp : Nat → String
  start_time : String
  interfere : Config → Config

/-- Everything a run leaves behind: the final send_status, the persisted
config.json, the ordered list of config.json writes performed by the run,
the log file contents if one was written, and the sent_count accumulator. -/
structure RunOutput where
  status : SendStatus
  disk : Config
  persists : List Config
  log_file : Option SendStatus
  sent_count : Nat

/-- The loop environment of a run: config values after the rollover reset
plus the oracles of the input. -/
def runEnv (disk : Config) (inp : RunInput) : LoopEnv :=
  { dm := (rollConfig disk inp.today).default_message,
    dry_run := inp.dry_run,
    send_method := (rollConfig disk inp.today).send_method,
    launch := inp.launch, followUps := inp.followUps,
    cancel := inp.cancel, stamp := inp.stamp }

/-- The enabled, quota-truncated contact list of a run (lines 201, 231). -/
def runEligible (disk : Config) (inp : RunInput) : List Contact :=
  eligibleContacts (rollConfig disk inp.today) inp.contacts

/-- The loop of a run, started with position 0, current 0, sent_count 0. -/
def runTriple (disk : Config) (inp : RunInput) : List LogEntry × Nat × Nat :=
  runLoopAux (runEnv disk inp) (runEligible disk inp) 0 0 0

/-- The send_status written when the daily limit is already reached
(lines 221-228): wholesale replacement with error text and empty results. -/
def blockedStatus (max_count : Int) (start_time : String) : SendStatus :=
  { is_running := false, current := 0, total := 0, results := [],
    start_time := some start_time,
    error := some ("Daily limit reached (" ++ toString max_count ++
      " SMS). Resets tomorrow."),
    max_count := none, daily_sent_before := none }

/-- The final send_status of a run that entered the loop: the dictionary of
lines 233-241 after the loop mutations of lines 252, 266 and the
is_running = False write of line 275. -/
def normalStatus (disk : Config) (inp : RunInput) : SendStatus :=
  { is_running := false,
    current := (runTriple disk inp).2.1,
    total := (runEligible disk inp).length,
    results := (runTriple disk inp).1,
    start_time := some inp.start_time,
    error := none,
    max_count := some (rollConfig disk inp.today).max_send_count,
    daily_sent_before := some (rollConfig disk inp.today).daily_sent_count }

/-- The quota commit (lines 278-282): the config is re-read from disk
(hence through interfere), sent_count is added to the count found there,
and the date stamped is the today captured at run start. -/
def commitConfig (disk : Config) (inp : RunInput) : Config :=
  let diskI := inp.interfere (rollConfig disk inp.today)
  { diskI with
    daily_sent_count := diskI.daily_sent_count + ((runTriple disk inp).2.2 : Int),
    daily_sent_date := inp.today }

/-- The config.json writes performed by the rollover reset (line 213):
one write when the date rolled over, none otherwise. -/
def resetPersists (disk : Config) (inp : RunInput) : List Config :=
  if disk.daily_sent_date ≠ inp.today then [rollConfig disk inp.today] else []

/-- send_all_sms (src/app.py lines 196-286) as a state transformer on the
persisted config, also reporting the final send_status, the ordered config
writes, and the log file contents.  The quota-exhausted path returns before
the loop, the commit and the log write; the dry-run path skips the commit. -/
def send_all_sms (disk : Config) (inp : RunInput) : RunOutput :=
  if quotaBlocked (rollConfig disk inp.today) = true then
    { status := blockedStatus (rollConfig disk inp.today).max_send_count inp.start_time,
      disk := rollConfig disk inp.today,
      persists := resetPersists disk inp,
      log_file := none, sent_count := 0 }
  else
    { status := normalStatus disk inp,
      disk := if inp.dry_run then rollConfig disk inp.today else commitConfig disk inp,
      persists := if inp.dry_run then resetPersists disk inp
        else resetPersists disk inp ++ [commitConfig disk inp],
      log_file := some (normalStatus disk inp),
      sent_count := (runTriple disk inp).2.2 }

/-- A sequence of runs threaded through the persisted config.json. -/
def runSeq (disk : Config) : List RunInput → Config
  | [] => disk
  | inp :: rest => runSeq (send_all_sms disk inp).disk rest

/-- The response body of /api/send/start. -/
structure StartResponse where
  success : Bool
  error : Option String
deriving Repr, DecidableEq

/-- api_start_send (src/app.py lines 500-515).  Returns the HTTP response,
the send_status as left by the handler itself, and whether a background
worker thread was started.  When a run is active the request is rejected,
send_status is untouched and no thread is created; otherwise the handler
always starts the worker thread before returning. -/
def api_start_send (st : SendStatus) : StartResponse × SendStatus × Bool :=
  if st.is_running then
    ({ success := false, error := some "送信中です" }, st, false)
  else
    ({ success := true, error := none }, st, true)

/-- What one blocking get on the shared log queue yields to a subscriber of
/api/send/stream (lines 535-541): a result entry, or the ping heartbeat
when the bounded wait elapses on an empty queue. -/
inductive StreamEvent where
  | entry : LogEntry → StreamEvent
  | ping : StreamEvent
deriving Repr, DecidableEq

/-- An interleaving step of the stream system: the worker putting an entry
on log_queue (line 267), or subscriber s running one iteration of the
generator loop (lines 536-541). -/
inductive StreamOp where
  | emit : LogEntry → StreamOp
  | get : Nat → StreamOp
deriving Repr, DecidableEq

/-- Semantics of the single shared queue.Queue (log_queue, line 40) under a
given interleaving: emit appends to the queue; a get by subscriber s pops
the head when the queue is non-empty, and otherwise the timeout fires and s
is handed the ping heartbeat.  Returns the delivery trace. -/
def runStream : List StreamOp → List LogEntry → List (Nat × StreamEvent)
  | [], _ => []
  | StreamOp.emit e :: ops, q => runStream ops (q ++ [e])
  | StreamOp.get s :: ops, [] => (s, StreamEvent.ping) :: runStream ops []
  | StreamOp.get s :: ops, e :: q => (s, StreamEvent.entry e) :: runStream ops q

/-- The result entries (heartbeats excluded) delivered to subscriber s. -/
def receivedEntries (s : Nat) (tr : List (Nat × StreamEvent)) : List LogEntry :=
  tr.filterMap (fun p =>
    if p.1 = s then
      match p.2 with
      | StreamEvent.entry e => some e
      | StreamEvent.ping => none
    else none)

/-- JSON values, the image of json.dump / json.load for the data at hand. -/
inductive JVal where
  | jnull : JVal
  | jbool : Bool → JVal
  | jint : Int → JVal
  | jstr : String → JVal
  | jarr : List JVal → JVal
  | jobj : List (String × JVal) → JVal

/-- Key lookup in a JSON object, first binding wins (dict.get). -/
def jLookup (k : String) : List (String × JVal) → Option JVal
  | [] => none
  | (k2, v) :: rest => if k2 = k then some v else jLookup k rest

/-- JSON form of one results entry, keys in insertion order
(lines 255-264). -/
def encodeEntry (e : LogEntry) : JVal :=
  JVal.jobj [("index", JVal.jint (e.index : Int)), ("phone", JVal.jstr e.phone),
    ("name", JVal.jstr e.name), ("timestamp", JVal.jstr e.timestamp),
    ("success", JVal.jbool e.success), ("result", JVal.jstr e.result)]

/-- Reading one results entry back from its JSON form. -/
def decodeEntry : JVal → Option LogEntry
  | JVal.jobj fields =>
    match jLookup "index" fields, jLookup "phone" fields, jLookup "name" fields,
      jLookup "timestamp" fields, jLookup "success" fields,
      jLookup "result" fields with
    | some (JVal.jint ix), some (JVal.jstr ph), some (JVal.jstr nm),
      some (JVal.jstr ts), some (JVal.jbool sc), some (JVal.jstr rs) =>
        some
          { index := ix.toNat, phone := ph, name := nm, timestamp := ts,
            success := sc, result := rs }
    | _, _, _, _, _, _ => none
  | _ => none

/-- Reading a results array back, element by element. -/
def decodeEntries : List JVal → Option (List LogEntry)
  | [] => some []
  | v :: vs =>
    match decodeEntry v, decodeEntries vs with
    | some e, some es => some (e :: es)
    | _, _ => none

/-- JSON form of send_status as dumped to the log file (line 286): the five
keys always present in insertion order, then the keys present only on some
paths exactly when the corresponding field is set. -/
def encodeStatus (s : SendStatus) : JVal :=
  JVal.jobj
    ([("is_running", JVal.jbool s.is_running),
      ("current", JVal.jint (s.current : Int)),
      ("total", JVal.jint (s.total : Int)),
      ("results", JVal.jarr (s.results.map encodeEntry)),
      ("start_time", match s.start_time with
        | some t => JVal.jstr t
        | none => JVal.jnull)] ++
    (match s.error with
      | some m => [("error", JVal.jstr m)]
      | none => []) ++
    (match s.max_count with
      | some n => [("max_count", JVal.jint n)]
      | none => []) ++
    (match s.daily_sent_before with
      | some n => [("daily_sent_before", JVal.jint n)]
      | none => []))

/-- An optional string field: absent key or null read as none. -/
def decodeStrField : Option JVal → Option String
  | some (JVal.jstr t) => some t
  | _ => none

/-- An optional integer field: absent key read as none. -/
def decodeIntField : Option JVal → Option Int
  | some (JVal.jint n) => some n
  | _ => none

/-- Reading a whole run record back from the JSON of its log file, as
api_get_log_detail returns it (lines 567-574). -/
def decodeStatus : JVal → Option SendStatus
  | JVal.jobj fields =>
    match jLookup "is_running" fields, jLookup "current" fields,
      jLookup "total" fields, jLookup "results" fields with
    | some (JVal.jbool ir), some (JVal.jint cur), some (JVal.jint tot),
      some (JVal.jarr rs) =>
      match decodeEntries rs with
      | some es =>
        some
          { is_running := ir, current := cur.toNat, total := tot.toNat,
            results := es,
            start_time := decodeStrField (jLookup "start_time" fields),
            error := decodeStrField (jLookup "error" fields),
            max_count := decodeIntField (jLookup "max_count" fields),
            daily_sent_before := decodeIntField (jLookup "daily_sent_before" fields) }
      | none => none
    | _, _, _, _ => none
  | _ => none

/-- Python truthiness of a JSON value (r.get("success") at lines 559-560). -/
def jTruthy : JVal → Bool
  | JVal.jnull => false
  | JVal.jbool b => b
  | JVal.jint n => decide (n ≠ 0)
  | JVal.jstr s => decide (s ≠ "")
  | JVal.jarr l => !l.isEmpty
  | JVal.jobj fs => !fs.isEmpty

/-- Whether a results entry counts as a success in api_get_logs. -/
def entrySucc (r : JVal) : Bool :=
  match r with
  | JVal.jobj fs =>
    match jLookup "success" fs with
    | some v => jTruthy v
    | none => false
  | _ => false

/-- The summary api_get_logs derives from a stored log file
(lines 553-561): total with default 0, then success and failed counts
recomputed from the results array. -/
def logSummary (v : JVal) : Int × Nat × Nat :=
  match v with
  | JVal.jobj fs =>
    let total := match jLookup "total" fs with
      | some (JVal.jint n) => n
      | _ => 0
    let rs := match jLookup "results" fs with
      | some (JVal.jarr l) => l
      | _ => []
    (total, (rs.filter entrySucc).length,
      (rs.filter (fun r => ! entrySucc r)).length)
  | _ => (0, 0, 0)

/-! Concrete data used by the witness and counterexample theorems. -/

/-- The send_status at module load (lines 31-37). -/
def stIdleEx : SendStatus :=
  { is_running := false, current := 0, total := 0, results := [],
    start_time := none, error := none, max_count := none,
    daily_sent_before := none }

/-- A send_status snapshot while a run is active. -/
def stRunningEx : SendStatus :=
  { is_running := true, current := 1, total := 3, results := [],
    start_time := some "2026-10-12T09:00:00", error := none,
    max_count := some 2, daily_sent_before := some 0 }

def contactA : Contact :=
  { id := 0, phone := "09011111111", name := "A", message := "", enabled := true }

def contactB : Contact :=
  { id := 1, phone := "09022222222", name := "B", message := "hello B", enabled := true }

def contactC : Contact :=
  { id := 2, phone := "09033333333", name := "C", message := "", enabled := false }

/-- config.json with quota 2, one message already sent today. -/
def diskEx : Config :=
  { default_message := "hello", send_delay_seconds := 0, send_method := "tap",
    max_send_count := 2, daily_sent_count := 1, daily_sent_date := "2026-10-12" }

/-- config.json with quota 1 already fully consumed today. -/
def diskFullEx : Config :=
  { default_message := "hello", send_delay_seconds := 0, send_method := "tap",
    max_send_count := 1, daily_sent_count := 1, daily_sent_date := "2026-10-12" }

/-- config.json with quota 2, stale date and count from the previous day. -/
def diskOldEx : Config :=
  { default_message := "hello", send_delay_seconds := 0, send_method := "tap",
    max_send_count := 2, daily_sent_count := 5, daily_sent_date := "2026-10-11" }

/-- config.json with no quota (max_send_count = 0). -/
def diskUnlimitedEx : Config :=
  { default_message := "hello", send_delay_seconds := 0, send_method := "tap",
    max_send_count := 0, daily_sent_count := 0, daily_sent_date := "2026-10-12" }

/-- A worker invocation on three contacts (one disabled) where the launch
intent fails for loop position 1 and succeeds elsewhere; no cancellation,
no external config interference. -/
def inpEx : RunInput :=
  { contacts := [contactA, contactB, contactC], today := "2026-10-12",
    dry_run := false,
    launch := fun i => if i == 1 then
        { ok := false, out := "", err := "device offline" }
      else { ok := true, out := "", err := "" },
    followUps := fun _ => [{ ok := true, out := "", err := "" }],
    cancel := fun _ => false,
    stamp := fun i => toString i,
    start_time := "2026-10-12T09:00:00", interfere := id }

/-- The same invocation with an external counter reset hitting config.json
between run start and commit (the /api/daily-count/reset endpoint). -/
def inpResetEx : RunInput :=
  { inpEx with interfere := fun c => { c with daily_sent_count := 0 } }

/-- A result entry used by the stream counterexample. -/
def entryEx : LogEntry :=
  { index := 1, phone := "09011111111", name := "A", timestamp := "t1",
    success := true, result := "Sent" }

/-! General lemmas about the embedded definitions. -/

theorem rollConfig_max (c : Config) (t : String) :
    (rollConfig c t).max_send_count = c.max_send_count := by
  unfold rollConfig; split <;> rfl

theorem rollConfig_count_le (c : Config) (t : String) (Q : Int)
    (h0 : 0 ≤ Q) (h : c.daily_sent_count ≤ Q) :
    (rollConfig c t).daily_sent_count ≤ Q := by
  unfold rollConfig; split
  · exact h0
  · exact h

theorem runLoopAux_length (env : LoopEnv) :
    ∀ (l : List Contact) (i cur sent : Nat),
      (runLoopAux env l i cur sent).1.length ≤ l.length := by
  intro l
  induction l with
  | nil => intro i cur sent; simp [runLoopAux]
  | cons c rest ih =>
    intro i cur sent
    by_cases h : env.cancel i
    · simp [runLoopAux, h]
    · simpa [runLoopAux, h] using ih (i + 1) (i + 1) _

theorem runLoopAux_map_index (env : LoopEnv) :
    ∀ (l : List Contact) (i cur sent : Nat),
      (runLoopAux env l i cur sent).1.map (fun e => e.index) =
        List.range' (i + 1) (runLoopAux env l i cur sent).1.length := by
  intro l
  induction l with
  | nil => intro i cur sent; simp [runLoopAux]
  | cons c rest ih =>
    intro i cur sent
    by_cases h : env.cancel i
    · simp [runLoopAux, h]
    · simp [runLoopAux, h, List.range'_succ]
      simpa using ih (i + 1) (i + 1) _

theorem runLoopAux_map_contact (env : LoopEnv) :
    ∀ (l : List Contact) (i cur sent : Nat),
      (runLoopAux env l i cur sent).1.map (fun e => (e.phone, e.name)) =
        (l.take (runLoopAux env l i cur sent).1.length).map
          (fun c => (c.phone, c.name)) := by
  intro l
  induction l with
  | nil => intro i cur sent; simp [runLoopAux]
  | cons c rest ih =>
    intro i cur sent
    by_cases h : env.cancel i
    · simp [runLoopAux, h]
    · simp [runLoopAux, h]
      simpa using ih (i + 1) (i + 1) _

theorem runLoopAux_current (env : LoopEnv) :
    ∀ (l : List Contact) (i sent : Nat),
      (runLoopAux env l i i sent).2.1 = i + (runLoopAux env l i i sent).1.length := by
  intro l
  induction l with
  | nil => intro i sent; simp [runLoopAux]
  | cons c rest ih =>
    intro i sent
    by_cases h : env.cancel i
    · simp [runLoopAux, h]
    · simp [runLoopAux, h]
      rw [ih (i + 1)]
      omega

theorem runLoopAux_sent (env : LoopEnv) :
    ∀ (l : List Contact) (i cur sent : Nat),
      (runLoopAux env l i cur sent).2.2 =
        sent + ((runLoopAux env l i cur sent).1.filter (fun e => e.success)).length := by
  intro l
  induction l with
  | nil => intro i cur sent; simp [runLoopAux]
  | cons c rest ih =>
    intro i cur sent
    by_cases h : env.cancel i
    · simp [runLoopAux, h]
    · simp only [runLoopAux, h, Bool.false_eq_true, if_false, List.filter_cons]
      rw [ih (i + 1) (i + 1)]
      by_cases hs : (loopOutcome env c i).1 <;> simp [hs] <;> omega

theorem runLoopAux_nocancel_length (env : LoopEnv) (h : ∀ i, env.cancel i = false) :
    ∀ (l : List Contact) (i cur sent : Nat),
      (runLoopAux env l i cur sent).1.length = l.length := by
  intro l
  induction l with
  | nil => intro i cur sent; simp [runLoopAux]
  | cons c rest ih =>
    intro i cur sent
    simp [runLoopAux, h i]
    simpa using ih (i + 1) (i + 1) _

theorem runLoopAux_map_success (env : LoopEnv) (h : ∀ i, env.cancel i = false) :
    ∀ (l : List Contact) (i cur sent : Nat),
      (runLoopAux env l i cur sent).1.map (fun e => e.success) =
        (List.enumFrom i l).map (fun p => (loopOutcome env p.2 p.1).1) := by
  intro l
  induction l with
  | nil => intro i cur sent; simp [runLoopAux]
  | cons c rest ih =>
    intro i cur sent
    simp [runLoopAux, h i, List.enumFrom]
    simpa using ih (i + 1) (i + 1) _

/-! Claim theorems. -/

/-- C9: in non-dry-run mode send_sms succeeds exactly when the initial
SMS-app launch command succeeds, and its value does not depend on the
results of the follow-up tap or key-event commands; in dry-run mode it
always succeeds.  A recorded success therefore attests only to launching
the messaging app. -/
theorem send_sms_success_is_launch_only (phone message send_method : String)
    (launch : AdbOutcome) (followUps followUps2 : List AdbOutcome) :
    (send_sms phone message false send_method launch followUps).1 = launch.ok ∧
    send_sms phone message false send_method launch followUps =
      send_sms phone message false send_method launch followUps2 ∧
    (send_sms phone message true send_method launch followUps).1 = true := by
  refine ⟨?_, rfl, rfl⟩
  cases h : launch.ok <;> simp [send_sms, h]

/-- C2: a start request issued while a run is active is rejected with a
not-accepted response, no worker thread is created, and the active
send_status record is returned unmodified. -/
theorem start_rejected_while_running (st : SendStatus) (h : st.is_running = true) :
    api_start_send st =
      ({ success := false, error := some "送信中です" }, st, false) := by
  simp [api_start_send, h]

theorem start_rejected_while_running_witness :
    api_start_send stRunningEx =
      ({ success := false, error := some "送信中です" }, stRunningEx, false) :=
  start_rejected_while_running stRunningEx rfl

/-- C3 counterexample: with the daily quota already consumed
(diskFullEx: quota 1, one sent today) the run does end in the error state
with no contact processed, but a start request on an idle system still
spawns a worker thread (api_start_send starts the thread before the quota
is ever consulted; the quota check happens inside the worker), so the
claim that no worker is spawned is false. -/
theorem quota_exhausted_spawns_worker_counterexample :
    (send_all_sms diskFullEx inpEx).status.error.isSome = true ∧
    (send_all_sms diskFullEx inpEx).status.results = [] ∧
    (send_all_sms diskFullEx inpEx).status.total = 0 ∧
    ¬ ((api_start_send stIdleEx).2.2 = false) := by
  refine ⟨rfl, rfl, rfl, ?_⟩
  decide

/-- C3 (amended): when dailyQuota is positive and the remaining quota for
today is non-positive, start still spawns the background worker, but that
worker immediately replaces send_status with a terminal record carrying a
descriptive error, empty results, total 0 and current 0; it attempts no
send, writes neither config.json nor a log file, and returns. -/
theorem quota_exhausted_run_is_noop (disk : Config) (inp : RunInput)
    (st : SendStatus) (hrun : st.is_running = false)
    (hQ : 0 < (rollConfig disk inp.today).max_send_count)
    (hrem : (rollConfig disk inp.today).max_send_count -
      (rollConfig disk inp.today).daily_sent_count ≤ 0) :
    api_start_send st = ({ success := true, error := none }, st, true) ∧
    send_all_sms disk inp =
      { status := blockedStatus disk.max_send_count inp.start_time,
        disk := disk, persists := [], log_file := none, sent_count := 0 } := by
  have hdate : ¬ disk.daily_sent_date ≠ inp.today := by
    intro hne
    have h1 : (rollConfig disk inp.today).daily_sent_count = 0 := by
      unfold rollConfig
      rw [if_pos hne]
    rw [h1] at hrem
    omega
  have hroll : rollConfig disk inp.today = disk := by
    unfold rollConfig
    rw [if_neg hdate]
  have hblocked : quotaBlocked (rollConfig disk inp.today) = true := by
    unfold quotaBlocked
    simp only [Bool.and_eq_true, decide_eq_true_eq]
    exact ⟨hQ, hrem⟩
  constructor
  · simp [api_start_send, hrun]
  · have hblocked2 : quotaBlocked disk = true := by rw [← hroll]; exact hblocked
    simp [send_all_sms, hroll, hblocked2, resetPersists, if_neg hdate]

theorem quota_exhausted_run_is_noop_witness :
    api_start_send stIdleEx = ({ success := true, error := none }, stIdleEx, true) ∧
    send_all_sms diskFullEx inpEx =
      { status := blockedStatus diskFullEx.max_send_count inpEx.start_time,
        disk := diskFullEx, persists := [], log_file := none, sent_count := 0 } :=
  quota_exhausted_run_is_noop diskFullEx inpEx stIdleEx rfl (by decide) (by decide)

/-- C5: a run started on a calendar date different from the stored quota
date first resets the persisted count to 0 and advances the stored date to
today, and that reset config is the first config.json write of the run;
the quota arithmetic then uses the reset values, so with quota Q the run
processes min(enabled contacts, Q) contacts and daily_sent_before is 0,
regardless of the previous date's consumption. -/
theorem rollover_resets_before_arithmetic (disk : Config) (inp : RunInput)
    (hdate : disk.daily_sent_date ≠ inp.today)
    (hQ : 0 < disk.max_send_count) :
    (send_all_sms disk inp).persists.head? =
      some { disk with daily_sent_count := 0, daily_sent_date := inp.today } ∧
    (send_all_sms disk inp).status.daily_sent_before = some 0 ∧
    (send_all_sms disk inp).status.total =
      min disk.max_send_count.toNat
        ((inp.contacts.filter (fun c => c.enabled)).length) := by
  have hroll : rollConfig disk inp.today =
      { disk with daily_sent_count := 0, daily_sent_date := inp.today } := by
    unfold rollConfig
    rw [if_pos hdate]
  have hnb : quotaBlocked (rollConfig disk inp.today) = false := by
    unfold quotaBlocked
    rw [hroll]
    simp only [Bool.and_eq_false_iff, decide_eq_false_iff_not]
    right
    omega
  have htot : (runEligible disk inp).length =
      min disk.max_send_count.toNat
        ((inp.contacts.filter (fun c => c.enabled)).length) := by
    unfold runEligible eligibleContacts
    rw [hroll]
    simp only [hQ, if_pos]
    rw [List.length_take]
    norm_num
  have hnb2 : quotaBlocked
      { disk with daily_sent_count := 0, daily_sent_date := inp.today } = false := by
    rw [← hroll]
    exact hnb
  refine ⟨?_, ?_, ?_⟩
  · by_cases hd : inp.dry_run <;>
      simp [send_all_sms, hnb2, hd, resetPersists, if_pos hdate, hroll]
  · simp only [send_all_sms, hnb, Bool.false_eq_true, if_false]
    simp only [normalStatus]
    rw [hroll]
  · simp only [send_all_sms, hnb, Bool.false_eq_true, if_false]
    simp only [normalStatus]
    rw [htot]

theorem rollover_resets_before_arithmetic_witness :
    (send_all_sms diskOldEx inpEx).persists.head? =
      some { diskOldEx with daily_sent_count := 0, daily_sent_date := inpEx.today } ∧
    (send_all_sms diskOldEx inpEx).status.daily_sent_before = some 0 ∧
    (send_all_sms diskOldEx inpEx).status.total =
      min diskOldEx.max_send_count.toNat
        ((inpEx.contacts.filter (fun c => c.enabled)).length) :=
  rollover_resets_before_arithmetic diskOldEx inpEx (by decide) (by decide)

/-- C4: for every run that enters the dispatch loop (and so for every run
that ends Completed or Cancelled), the index fields of the recorded results
are exactly 1..len(results) in order, the entries correspond positionally
to the enabled-filtered, quota-truncated input list, and the final value of
the current counter equals len(results). -/
theorem results_sequence_and_order (disk : Config) (inp : RunInput)
    (hnb : quotaBlocked (rollConfig disk inp.today) = false) :
    (send_all_sms disk inp).status.results.map (fun e => e.index) =
      List.range' 1 (send_all_sms disk inp).status.results.length ∧
    (send_all_sms disk inp).status.results.map (fun e => (e.phone, e.name)) =
      ((runEligible disk inp).take
        (send_all_sms disk inp).status.results.length).map
        (fun c => (c.phone, c.name)) ∧
    (send_all_sms disk inp).status.current =
      (send_all_sms disk inp).status.results.length ∧
    (send_all_sms disk inp).status.results.length ≤ (runEligible disk inp).length := by
  have hs : (send_all_sms disk inp).status = normalStatus disk inp := by
    simp [send_all_sms, hnb]
  rw [hs]
  simp only [normalStatus, runTriple]
  refine ⟨?_, ?_, ?_, ?_⟩
  · have h := runLoopAux_map_index (runEnv disk inp) (runEligible disk inp) 0 0 0
    simpa using h
  · exact runLoopAux_map_contact (runEnv disk inp) (runEligible disk inp) 0 0 0
  · have h := runLoopAux_current (runEnv disk inp) (runEligible disk inp) 0 0
    simpa using h
  · exact runLoopAux_length (runEnv disk inp) (runEligible disk inp) 0 0 0

theorem results_sequence_and_order_witness :
    (send_all_sms diskEx inpEx).status.results.map (fun e => e.index) =
      List.range' 1 (send_all_sms diskEx inpEx).status.results.length ∧
    (send_all_sms diskEx inpEx).status.results.map (fun e => (e.phone, e.name)) =
      ((runEligible diskEx inpEx).take
        (send_all_sms diskEx inpEx).status.results.length).map
        (fun c => (c.phone, c.name)) ∧
    (send_all_sms diskEx inpEx).status.current =
      (send_all_sms diskEx inpEx).status.results.length ∧
    (send_all_sms diskEx inpEx).status.results.length ≤
      (runEligible diskEx inpEx).length :=
  results_sequence_and_order diskEx inpEx (by decide)

/-- C7: in a run that enters the loop and is never cancelled, the loop runs
over the whole eligible list no matter which sends fail: every contact gets
exactly one result entry whose success flag is the driver outcome for that
position (a failure is recorded with success = false and the loop simply
advances, with no retry and no termination), and the committed sent_count
is derived from the results as the number of successful entries; the run
record itself stores no separate success or failure counters. -/
theorem failures_recorded_loop_continues (disk : Config) (inp : RunInput)
    (hnb : quotaBlocked (rollConfig disk inp.today) = false)
    (hnc : ∀ i, inp.cancel i = false) :
    (send_all_sms disk inp).status.results.length = (runEligible disk inp).length ∧
    (send_all_sms disk inp).status.results.map (fun e => e.success) =
      (List.enumFrom 0 (runEligible disk inp)).map
        (fun p => (loopOutcome (runEnv disk inp) p.2 p.1).1) ∧
    (send_all_sms disk inp).sent_count =
      ((send_all_sms disk inp).status.results.filter (fun e => e.success)).length := by
  have hs : (send_all_sms disk inp).status = normalStatus disk inp := by
    simp [send_all_sms, hnb]
  have hsc : (send_all_sms disk inp).sent_count = (runTriple disk inp).2.2 := by
    simp [send_all_sms, hnb]
  rw [hs, hsc]
  simp only [normalStatus, runTriple]
  have hcancel : ∀ i, (runEnv disk inp).cancel i = false := hnc
  refine ⟨?_, ?_, ?_⟩
  · exact runLoopAux_nocancel_length (runEnv disk inp) hcancel _ 0 0 0
  · exact runLoopAux_map_success (runEnv disk inp) hcancel _ 0 0 0
  · have h := runLoopAux_sent (runEnv disk inp) (runEligible disk inp) 0 0 0
    simpa using h

theorem failures_recorded_loop_continues_witness :
    (send_all_sms diskUnlimitedEx inpEx).status.results.length =
      (runEligible diskUnlimitedEx inpEx).length ∧
    (send_all_sms diskUnlimitedEx inpEx).status.results.map (fun e => e.success) =
      (List.enumFrom 0 (runEligible diskUnlimitedEx inpEx)).map
        (fun p => (loopOutcome (runEnv diskUnlimitedEx inpEx) p.2 p.1).1) ∧
    (send_all_sms diskUnlimitedEx inpEx).sent_count =
      ((send_all_sms diskUnlimitedEx inpEx).status.results.filter
        (fun e => e.success)).length :=
  failures_recorded_loop_continues diskUnlimitedEx inpEx (by decide) (fun i => rfl)

/-- Helper for C1: one run, whatever its contacts, adb outcomes and
cancellations, keeps the persisted daily count at or below the quota and
leaves the quota itself unchanged, provided nothing external writes
config.json during the run. -/
theorem run_disk_quota_invariant (disk : Config) (inp : RunInput) (Q : Int)
    (hmax : disk.max_send_count = Q) (hQ : 0 < Q)
    (hle : disk.daily_sent_count ≤ Q) (hint : inp.interfere = id) :
    (send_all_sms disk inp).disk.daily_sent_count ≤ Q ∧
    (send_all_sms disk inp).disk.max_send_count = Q := by
  have hrmax : (rollConfig disk inp.today).max_send_count = Q := by
    rw [rollConfig_max, hmax]
  have hrcnt : (rollConfig disk inp.today).daily_sent_count ≤ Q :=
    rollConfig_count_le disk inp.today Q (le_of_lt hQ) hle
  by_cases hb : quotaBlocked (rollConfig disk inp.today) = true
  · constructor <;> simp [send_all_sms, hb, hrcnt, hrmax]
  · have hb2 : quotaBlocked (rollConfig disk inp.today) = false := by
      simpa using hb
    by_cases hd : inp.dry_run
    · constructor <;> simp [send_all_sms, hb2, hd, hrcnt, hrmax]
    · have hrem : ¬ ((rollConfig disk inp.today).max_send_count -
          (rollConfig disk inp.today).daily_sent_count ≤ 0) := by
        unfold quotaBlocked at hb2
        simp only [Bool.and_eq_false_iff, decide_eq_false_iff_not] at hb2
        rcases hb2 with h | h
        · exact absurd (hrmax ▸ hQ) h
        · exact h
      have hsentNat : (runTriple disk inp).2.2 ≤
          ((rollConfig disk inp.today).max_send_count -
            (rollConfig disk inp.today).daily_sent_count).toNat := by
        have h1 : (runTriple disk inp).2.2 =
            0 + ((runTriple disk inp).1.filter (fun e => e.success)).length :=
          runLoopAux_sent (runEnv disk inp) (runEligible disk inp) 0 0 0
        have h2 : ((runTriple disk inp).1.filter (fun e => e.success)).length ≤
            (runTriple disk inp).1.length := List.length_filter_le _ _
        have h3 : (runTriple disk inp).1.length ≤ (runEligible disk inp).length :=
          runLoopAux_length (runEnv disk inp) (runEligible disk inp) 0 0 0
        have h4 : (runEligible disk inp).length ≤
            ((rollConfig disk inp.today).max_send_count -
              (rollConfig disk inp.today).daily_sent_count).toNat := by
          unfold runEligible eligibleContacts
          rw [if_pos (hrmax ▸ hQ)]
          rw [List.length_take]
          exact min_le_left _ _
        omega
      have hfinal : (send_all_sms disk inp).disk = commitConfig disk inp := by
        simp [send_all_sms, hb2, hd]
      rw [hfinal]
      unfold commitConfig
      rw [hint]
      simp only [id_eq]
      constructor
      · omega
      · exact hrmax

/-- C1: for every quota Q greater than 0 and every sequence of non-dry-run
runs free of external config.json writes, starting from a persisted state
whose daily count does not exceed Q, the persisted daily sent count never
exceeds Q: each run truncates the enabled list to the remaining quota
before any send and commits only the successes of that truncated list. -/
theorem daily_quota_never_exceeded (Q : Int) (disk : Config)
    (inputs : List RunInput)
    (hmax : disk.max_send_count = Q) (hQ : 0 < Q)
    (hinit : disk.daily_sent_count ≤ Q)
    (hdry : ∀ inp ∈ inputs, inp.dry_run = false)
    (hint : ∀ inp ∈ inputs, inp.interfere = id) :
    (runSeq disk inputs).daily_sent_count ≤ Q := by
  revert hdry hint
  induction inputs generalizing disk with
  | nil =>
    intro _ _
    simpa [runSeq] using hinit
  | cons inp rest ih =>
    intro hdry hint
    have h1 := run_disk_quota_invariant disk inp Q hmax hQ hinit
      (hint inp (List.mem_cons_self inp rest))
    have h2 : runSeq disk (inp :: rest) = runSeq (send_all_sms disk inp).disk rest := by
      simp [runSeq]
    rw [h2]
    exact ih (send_all_sms disk inp).disk h1.2 h1.1
      (fun x hx => hdry x (List.mem_cons_of_mem inp hx))
      (fun x hx => hint x (List.mem_cons_of_mem inp hx))

theorem daily_quota_never_exceeded_witness :
    (runSeq diskEx [inpEx, inpEx]).daily_sent_count ≤ 2 :=
  daily_quota_never_exceeded 2 diskEx [inpEx, inpEx] rfl (by decide) (by decide)
    (by intro x hx
        fin_cases hx <;> rfl)
    (by intro x hx
        fin_cases hx <;> rfl)


/-- C10: for every non-dry-run run that enters the loop, the end-of-run
quota commit adds the run's success count to the daily_sent_count found on
disk at commit time (after any external mid-run write, modelled by
interfere), so an external reset is not overwritten by the pre-run value,
and it stamps the date captured at run start. -/
theorem commit_adds_to_count_on_disk (disk : Config) (inp : RunInput)
    (hnb : quotaBlocked (rollConfig disk inp.today) = false)
    (hdry : inp.dry_run = false) :
    (send_all_sms disk inp).disk.daily_sent_count =
      (inp.interfere (rollConfig disk inp.today)).daily_sent_count +
        ((send_all_sms disk inp).sent_count : Int) ∧
    (send_all_sms disk inp).disk.daily_sent_date = inp.today := by
  have h1 : (send_all_sms disk inp).disk = commitConfig disk inp := by
    simp [send_all_sms, hnb, hdry]
  have h2 : (send_all_sms disk inp).sent_count = (runTriple disk inp).2.2 := by
    simp [send_all_sms, hnb]
  rw [h1, h2]
  unfold commitConfig
  exact ⟨rfl, rfl⟩

theorem commit_adds_to_count_on_disk_witness :
    (send_all_sms diskEx inpResetEx).disk.daily_sent_count =
      (inpResetEx.interfere (rollConfig diskEx inpResetEx.today)).daily_sent_count +
        ((send_all_sms diskEx inpResetEx).sent_count : Int) ∧
    (send_all_sms diskEx inpResetEx).disk.daily_sent_date = inpResetEx.today :=
  commit_adds_to_count_on_disk diskEx inpResetEx (by decide) rfl

/-- C6 counterexample: one entry is emitted on the shared log queue and two
subscribers then each perform a get.  Subscriber 0 pops the entry, so
subscriber 1 finds the queue empty and receives only the heartbeat, never
the entry: the single queue.Queue is a work-sharing channel, and with two
or more subscribers an emitted entry is not delivered to each of them. -/
theorem stream_not_fanout_counterexample :
    receivedEntries 1
      (runStream [StreamOp.emit entryEx, StreamOp.get 0, StreamOp.get 1] []) = [] ∧
    receivedEntries 0
      (runStream [StreamOp.emit entryEx, StreamOp.get 0, StreamOp.get 1] []) = [entryEx] ∧
    runStream [StreamOp.emit entryEx, StreamOp.get 0, StreamOp.get 1] [] =
      [(0, StreamEvent.entry entryEx), (1, StreamEvent.ping)] :=
  ⟨rfl, rfl, rfl⟩

/-- C6 (amended): each emitted entry is delivered to at most one
subscriber.  A sole subscriber draining the queue receives every entry
emitted after it subscribed, in order, and a subscriber whose bounded wait
elapses on an empty queue receives the heartbeat placeholder. -/
theorem single_subscriber_receives_all (es : List LogEntry) :
    receivedEntries 0
      (runStream (es.map StreamOp.emit ++
        List.replicate es.length (StreamOp.get 0)) []) = es ∧
    runStream [StreamOp.get 0] [] = [(0, StreamEvent.ping)] := by
  constructor
  · have hA : ∀ (es2 : List LogEntry) (ops : List StreamOp) (q : List LogEntry),
        runStream (es2.map StreamOp.emit ++ ops) q = runStream ops (q ++ es2) := by
      intro es2
      induction es2 with
      | nil => intro ops q; simp
      | cons e rest ih =>
        intro ops q
        show runStream (rest.map StreamOp.emit ++ ops) (q ++ [e]) =
          runStream ops (q ++ e :: rest)
        rw [ih]
        simp
    have hB : ∀ (q : List LogEntry),
        receivedEntries 0
          (runStream (List.replicate q.length (StreamOp.get 0)) q) = q := by
      intro q
      induction q with
      | nil => rfl
      | cons e rest ih =>
        simp only [List.length_cons, List.replicate_succ, runStream]
        simp only [receivedEntries, List.filterMap_cons] at ih ⊢
        simpa using ih
    rw [hA, List.nil_append]
    exact hB es
  · rfl

/-- Entry-level JSON round trip: reading back the encoded entry restores
every field. -/
theorem decodeEntry_encodeEntry (e : LogEntry) :
    decodeEntry (encodeEntry e) = some e := rfl

theorem decodeEntries_map (l : List LogEntry) :
    decodeEntries (l.map encodeEntry) = some l := by
  induction l with
  | nil => rfl
  | cons e rest ih =>
    simp only [List.map_cons, decodeEntries, decodeEntry_encodeEntry, ih]

/-- The api_get_logs success test sees exactly the recorded success flag on
an encoded entry. -/
theorem entrySucc_encodeEntry (e : LogEntry) :
    entrySucc (encodeEntry e) = e.success := rfl

theorem filter_entrySucc_map (l : List LogEntry) :
    ((l.map encodeEntry).filter entrySucc).length =
      (l.filter (fun e => e.success)).length ∧
    ((l.map encodeEntry).filter (fun r => ! entrySucc r)).length =
      (l.filter (fun e => ! e.success)).length := by
  induction l with
  | nil => exact ⟨rfl, rfl⟩
  | cons e rest ih =>
    cases h : e.success <;>
      simp [List.filter_cons, entrySucc_encodeEntry, h, ih.1, ih.2]

/-- C8: persisting the final run record to its log file and reloading it is
the identity on the recorded data: every field, the results and their
ordering are restored, and the summary api_get_logs derives from the stored
file has the original total and the success and failure counts computed
from the original results. -/
theorem log_file_roundtrip (s : SendStatus) :
    decodeStatus (encodeStatus s) = some s ∧
    logSummary (encodeStatus s) =
      ((s.total : Int), (s.results.filter (fun e => e.success)).length,
        (s.results.filter (fun e => ! e.success)).length) := by
  obtain ⟨ir, cur, tot, res, st, er, mc, db⟩ := s
  have hres := decodeEntries_map res
  have hcnt := filter_entrySucc_map res
  cases st <;> cases er <;> cases mc <;> cases db <;>
    refine ⟨?_, ?_⟩ <;>
    simp [encodeStatus, decodeStatus, jLookup, logSummary, hres,
      decodeStrField, decodeIntField, hcnt.1, hcnt.2]
